import Mathlib

/-!
Verification development for the dnscl repository: a family of Python programs
(dnscl.py, dnscl_tail.py, dnscl_api.py, dnscl_pihole.py) that scan DNS resolver
log files line by line, classify and extract fields anchored on literal marker
tokens, aggregate per-key counts, and report ranked results.

The embedding models each scan as a pure fold over the list of decoded input
lines.  Python string operations are modelled faithfully:
`sub in s` as substring containment, `s.strip().split(" ")` as strip plus
split on single spaces, `s.lower()` and `s.upper()` as ASCII case mapping,
and list indexing `fields[i]` with Python semantics (negative indices count
from the end, out-of-range indices raise IndexError).  Fallible steps return
an `Except PyErr` value; `PyErr` distinguishes the exception classes the code
can actually raise (IndexError from list indexing, AttributeError from calling
`.split` on None, TypeError from passing None to `re.search`).

The regular-expression matcher `re.search(pattern, s, re.IGNORECASE)` used by
the name filters is treated as an opaque boolean parameter `reS` of the scans;
no theorem below depends on the internals of regex matching.
-/

namespace Dnscl

/-- Exception classes the Python code can raise during a scan. -/
inductive PyErr where
  | indexError
  | typeError
  | attributeError
deriving DecidableEq, Repr

deriving instance DecidableEq for Except

/-- Boolean test that the first character list is a prefix of the second. -/
def startsWithList : List Char → List Char → Bool
  | [], _ => true
  | _ :: _, [] => false
  | a :: as, b :: bs => a = b && startsWithList as bs

/-- Boolean substring containment on character lists, scanning left to right. -/
def containsSub (pat : List Char) : List Char → Bool
  | [] => pat.isEmpty
  | c :: cs => startsWithList pat (c :: cs) || containsSub pat cs

/-- Model of the Python expression `sub in s` on strings. -/
def pyIn (sub s : String) : Bool := containsSub sub.data s.data

/-- Characters removed by Python str.strip with no arguments. -/
def isPySpace (c : Char) : Bool :=
  c = ' ' || c = '\t' || c = '\n' || c = '\r' || c = Char.ofNat 11 || c = Char.ofNat 12

/-- Model of Python `s.strip()`: drop whitespace from both ends. -/
def pyStrip (s : String) : String :=
  String.mk (((s.data.dropWhile isPySpace).reverse.dropWhile isPySpace).reverse)

/-- Split a character list on every occurrence of the space character,
keeping empty pieces between consecutive spaces, exactly as Python
`split(" ")` does. -/
def splitOnSpace : List Char → List (List Char)
  | [] => [[]]
  | c :: cs =>
    match splitOnSpace cs with
    | [] => [[]]
    | t :: ts => if c = ' ' then [] :: t :: ts else (c :: t) :: ts

/-- Model of `line.strip().split(" ")`: the token list every dnscl scan builds. -/
def pyFields (line : String) : List String :=
  (splitOnSpace (pyStrip line).data).map (fun t => String.mk t)

/-- Model of Python `s.lower()` (ASCII case mapping). -/
def pyLower (s : String) : String := String.mk (s.data.map Char.toLower)

/-- Model of Python `s.upper()` (ASCII case mapping). -/
def pyUpper (s : String) : String := String.mk (s.data.map Char.toUpper)

/-- Model of Python list indexing `fields[i]`: a negative index counts from
the end of the list, and an index outside the range raises IndexError. -/
def pyGet (fields : List String) (i : Int) : Except PyErr String :=
  if 0 ≤ i then
    match fields[i.toNat]? with
    | some v => .ok v
    | none => .error .indexError
  else
    let j : Int := (fields.length : Int) + i
    if 0 ≤ j then
      match fields[j.toNat]? with
      | some v => .ok v
      | none => .error .indexError
    else .error .indexError

/-- Model of Python `tok.split(sep)[0]` for a one-character separator: the
part of the token before the first occurrence of the separator. -/
def pyHead (tok : String) (sep : Char) : String :=
  String.mk (tok.data.takeWhile (fun c => c ≠ sep))

/-- Shared body of the five find_*_field functions of dnscl.py (and of
pihole's find_field): walk the token list with a running index, and at the
first token satisfying the anchor predicate return the token of the original
list at the anchor index plus the offset, with Python indexing semantics.
When the anchor is never found the Python functions return None, modelled as
`.ok none`. -/
def findLoopAux (pred : String → Bool) (off : Int) (fields : List String) :
    List String → Nat → Except PyErr (Option String)
  | [], _ => .ok none
  | f :: rest, i =>
    if pred f then (pyGet fields ((i : Int) + off)).map some
    else findLoopAux pred off fields rest (i + 1)

/-- Model of dnscl.py find_domain_field: token after the first "query:" token. -/
def find_domain_field (fields : List String) : Except PyErr (Option String) :=
  findLoopAux (fun f => f = "query:") 1 fields fields 0

/-- Model of dnscl.py find_ip_field: token two before the first "query:" token. -/
def find_ip_field (fields : List String) : Except PyErr (Option String) :=
  findLoopAux (fun f => f = "query:") (-2) fields fields 0

/-- Model of dnscl.py find_rpz_domain_field: token three after the first "QNAME" token. -/
def find_rpz_domain_field (fields : List String) : Except PyErr (Option String) :=
  findLoopAux (fun f => f = "QNAME") 3 fields fields 0

/-- Model of dnscl.py find_rpz_ip_field: token three before the first "QNAME" token. -/
def find_rpz_ip_field (fields : List String) : Except PyErr (Option String) :=
  findLoopAux (fun f => f = "QNAME") (-3) fields fields 0

/-- Model of dnscl.py find_record_type_field: token three after the first "query:" token. -/
def find_record_type_field (fields : List String) : Except PyErr (Option String) :=
  findLoopAux (fun f => f = "query:") 3 fields fields 0

/-- Model of `defaultdict(int)` increment `d[k] += 1`: increment in place if
the key is present, else append the new key at the end, preserving Python
dict insertion order. -/
def incr {α : Type} [DecidableEq α] : List (α × Nat) → α → List (α × Nat)
  | [], k => [(k, 1)]
  | (k2, c) :: rest, k => if k = k2 then (k2, c + 1) :: rest else (k2, c) :: incr rest k

/-- Sum of all per-key counts of an aggregate. -/
def sumCounts {α : Type} (d : List (α × Nat)) : Nat := (d.map Prod.snd).sum

/-- Fold a per-line step over the input lines, aborting at the first raised
exception, exactly as the Python for-loop over the open file does. -/
def runScan {σ : Type} (step : σ → String → Except PyErr σ) : σ → List String → Except PyErr σ
  | s, [] => .ok s
  | s, l :: ls =>
    match step s l with
    | .ok s2 => runScan step s2 ls
    | .error e => .error e

/-- Per-line body of dnscl.py dnscl_ipaddress: lines containing the client
filter followed by the port separator, "named" and "query:", with more than
12 tokens; the queried domain keys the aggregate, optionally filtered by the
regex matcher `reS` (re.search with IGNORECASE), which Python would call on
None if the extraction missed (a TypeError). -/
def ipStep (reS : String → String → Bool) (ip dom : String)
    (s : List (Option String × Nat) × Nat) (line : String) :
    Except PyErr (List (Option String × Nat) × Nat) :=
  if pyIn (ip ++ "#") line then
    if pyIn "named" line && pyIn "query:" line then
      let fields := pyFields line
      if fields.length > 12 then
        match find_domain_field fields with
        | .error e => .error e
        | .ok domain =>
          if dom ≠ "" then
            match domain with
            | none => .error .typeError
            | some d => if reS dom d then .ok (incr s.1 (some d), s.2 + 1) else .ok s
          else .ok (incr s.1 domain, s.2 + 1)
      else .ok s
    else .ok s
  else .ok s

/-- Model of dnscl.py dnscl_ipaddress: the by-client-address scan, returning
the domain aggregate and the line count. -/
def dnscl_ipaddress (reS : String → String → Bool) (ip dom : String) (lines : List String) :
    Except PyErr (List (Option String × Nat) × Nat) :=
  runScan (ipStep reS ip dom) ([], 0) lines

/-- Per-line body of dnscl.py dnscl_domain: every "query:" line has its client
token and domain token extracted (calling .split on a None extraction result
raises AttributeError, and re.search on a None domain raises TypeError),
matched by the regex matcher and the optional client substring cross-filter. -/
def domainStep (reS : String → String → Bool) (domName ipSearch : String)
    (s : List (String × Nat) × List (String × Nat) × Nat) (line : String) :
    Except PyErr (List (String × Nat) × List (String × Nat) × Nat) :=
  if pyIn "query:" line then
    let fields := pyFields line
    match find_ip_field fields with
    | .error e => .error e
    | .ok none => .error .attributeError
    | .ok (some ipTok) =>
      let ipA := pyHead ipTok '#'
      match find_domain_field fields with
      | .error e => .error e
      | .ok none => .error .typeError
      | .ok (some dfield) =>
        if reS domName dfield then
          if ipSearch ≠ "" then
            if pyIn ipSearch line then
              .ok (incr s.1 ipA, incr s.2.1 dfield, s.2.2 + 1)
            else .ok s
          else .ok (incr s.1 ipA, incr s.2.1 dfield, s.2.2 + 1)
        else .ok s
  else .ok s

/-- Model of dnscl.py dnscl_domain: the by-domain scan, returning the client
aggregate, the domain aggregate and the line count. -/
def dnscl_domain (reS : String → String → Bool) (domName ipSearch : String)
    (lines : List String) :
    Except PyErr (List (String × Nat) × List (String × Nat) × Nat) :=
  runScan (domainStep reS domName ipSearch) ([], [], 0) lines

/-- Per-line body of dnscl.py dnscl_rpz: lines containing the client filter
plus port separator, the "QNAME" marker and no "SOA" marker; the policy zone
name (before the first slash) keys the aggregate when the line has more than
11 tokens. -/
def rpzStep (ip : String) (s : List (String × Nat) × Nat) (line : String) :
    Except PyErr (List (String × Nat) × Nat) :=
  if pyIn (ip ++ "#") line then
    if pyIn "QNAME" line && !pyIn "SOA" line then
      let fields := pyFields line
      match find_rpz_domain_field fields with
      | .error e => .error e
      | .ok none => .error .attributeError
      | .ok (some tok) =>
        let rpzDomain := pyHead tok '/'
        if fields.length > 11 then .ok (incr s.1 rpzDomain, s.2 + 1) else .ok s
    else .ok s
  else .ok s

/-- Model of dnscl.py dnscl_rpz: the by-policy-zone scan. -/
def dnscl_rpz (ip : String) (lines : List String) :
    Except PyErr (List (String × Nat) × Nat) :=
  runScan (rpzStep ip) ([], 0) lines

/-- Per-line body of dnscl.py dnscl_rpz_domain: lines containing the filter
verbatim (a case-sensitive gate), the "QNAME" marker and no "SOA" marker;
after a further case-insensitive containment check and the token threshold,
the client address keys the aggregate and the zone name list grows. -/
def rpzDomainStep (domRpz : String)
    (s : List (String × Nat) × List String × Nat) (line : String) :
    Except PyErr (List (String × Nat) × List String × Nat) :=
  if pyIn domRpz line then
    if pyIn "QNAME" line && !pyIn "SOA" line then
      let fields := pyFields line
      if pyIn (pyLower domRpz) (pyLower line) && fields.length > 11 then
        match find_rpz_ip_field fields with
        | .error e => .error e
        | .ok none => .error .attributeError
        | .ok (some ipTok) =>
          let ipA := pyHead ipTok '#'
          match find_rpz_domain_field fields with
          | .error e => .error e
          | .ok none => .error .attributeError
          | .ok (some domTok) =>
            let rpzDomain := pyHead domTok '/'
            .ok (incr s.1 ipA,
                 (if domRpz ≠ "" then s.2.1 ++ [rpzDomain] else s.2.1), s.2.2 + 1)
      else .ok s
    else .ok s
  else .ok s

/-- Model of dnscl.py dnscl_rpz_domain: the by-policy-zone-domain scan. -/
def dnscl_rpz_domain (domRpz : String) (lines : List String) :
    Except PyErr (List (String × Nat) × List String × Nat) :=
  runScan (rpzDomainStep domRpz) ([], [], 0) lines

/-- Per-line body of dnscl.py dnscl_record_ip: the record type is extracted
before the token threshold test, so a short line can still raise IndexError
inside the extractor. -/
def recordIpStep (ip : String)
    (s : List (Option String × Nat) × List (Option String) × Nat) (line : String) :
    Except PyErr (List (Option String × Nat) × List (Option String) × Nat) :=
  if pyIn (ip ++ "#") line then
    if pyIn "query:" line then
      let fields := pyFields line
      match find_record_type_field fields with
      | .error e => .error e
      | .ok rt =>
        if fields.length > 12 then
          match find_domain_field fields with
          | .error e => .error e
          | .ok dom => .ok (incr s.1 rt, s.2.1 ++ [dom], s.2.2 + 1)
        else .ok s
    else .ok s
  else .ok s

/-- Model of dnscl.py dnscl_record_ip: the by-record-type-for-client scan. -/
def dnscl_record_ip (ip : String) (lines : List String) :
    Except PyErr (List (Option String × Nat) × List (Option String) × Nat) :=
  runScan (recordIpStep ip) ([], [], 0) lines

/-- Per-line body of dnscl.py dnscl_record_domain: lines containing the
domain filter case-insensitively and "query:"; the client token is split (an
AttributeError when the anchor token is missing) and the record type keys the
aggregate. -/
def recordDomainStep (domName : String)
    (s : List (Option String × Nat) × List String × List (Option String) × Nat)
    (line : String) :
    Except PyErr (List (Option String × Nat) × List String × List (Option String) × Nat) :=
  let fields := pyFields line
  if pyIn (pyLower domName) (pyLower line) && pyIn "query:" line then
    match find_ip_field fields with
    | .error e => .error e
    | .ok none => .error .attributeError
    | .ok (some ipTok) =>
      let ipA := pyHead ipTok '#'
      match find_record_type_field fields with
      | .error e => .error e
      | .ok rt =>
        if domName ≠ "" then
          match find_domain_field fields with
          | .error e => .error e
          | .ok dom =>
            .ok (incr s.1 rt, s.2.1 ++ [ipA], s.2.2.1 ++ [dom], s.2.2.2 + 1)
        else .ok (incr s.1 rt, s.2.1 ++ [ipA], s.2.2.1, s.2.2.2 + 1)
  else .ok s

/-- Model of dnscl.py dnscl_record_domain: the by-record-type-for-domain scan. -/
def dnscl_record_domain (domName : String) (lines : List String) :
    Except PyErr (List (Option String × Nat) × List String × List (Option String) × Nat) :=
  runScan (recordDomainStep domName) ([], [], [], 0) lines

/-- Per-line body of dnscl.py dnscl_record_type: a "query:" line counts when
its extracted record type equals the upper-cased filter; comparing the filter
with a None extraction result is False in Python, so an anchor miss is
silently skipped here. -/
def recordTypeStep (recType : String)
    (s : List (Option String × Nat) × List String × Nat) (line : String) :
    Except PyErr (List (Option String × Nat) × List String × Nat) :=
  if pyIn "query:" line then
    let fields := pyFields line
    match find_record_type_field fields with
    | .error e => .error e
    | .ok rt =>
      match rt with
      | some v =>
        if pyUpper recType = v then
          match find_domain_field fields with
          | .error e => .error e
          | .ok dom =>
            match find_ip_field fields with
            | .error e => .error e
            | .ok none => .error .attributeError
            | .ok (some ipTok) =>
              .ok (incr s.1 dom, s.2.1 ++ [pyHead ipTok '#'], s.2.2 + 1)
        else .ok s
      | none => .ok s
  else .ok s

/-- Model of dnscl.py dnscl_record_type: the by-exact-record-type scan. -/
def dnscl_record_type (recType : String) (lines : List String) :
    Except PyErr (List (Option String × Nat) × List String × Nat) :=
  runScan (recordTypeStep recType) ([], [], 0) lines

/-- Stable insertion of a pair into a list sorted by non-increasing count:
the new element goes before the first element whose count is not greater,
so elements with equal counts keep their original relative order. -/
def insertByCount {α : Type} (x : α × Nat) : List (α × Nat) → List (α × Nat)
  | [] => [x]
  | y :: ys => if y.2 > x.2 then y :: insertByCount x ys else x :: y :: ys

/-- Model of dnscl.py sort_dict: Python
`sorted(items, key=lambda p: p[1], reverse=True)` is the stable sort by
descending count, realised here as a stable insertion sort. -/
def sort_dict {α : Type} : List (α × Nat) → List (α × Nat)
  | [] => []
  | x :: xs => insertByCount x (sort_dict xs)

end Dnscl

namespace DnsclTail

open Dnscl

/-- Model of dnscl_tail.py tail: the helper spawns `tail -n num_lines` on the
file, which outputs the last `num_lines` lines (the whole file when it is
shorter); its Python default argument is 60 lines. -/
def tail (numLines : Nat) (fileLines : List String) : List String :=
  fileLines.drop (fileLines.length - numLines)

/-- Per-line body of dnscl_tail.py dnscl_ipaddress: the matcher of this
variant requires the substrings "named" and "query" (without the colon) in
one combined condition; the rest mirrors dnscl.py, and the find functions of
dnscl_tail.py are verbatim copies of those of dnscl.py, so the Dnscl models
are reused. -/
def ipStep (reS : String → String → Bool) (ip dom : String)
    (s : List (Option String × Nat) × Nat) (line : String) :
    Except PyErr (List (Option String × Nat) × Nat) :=
  if pyIn (ip ++ "#") line && pyIn "named" line && pyIn "query" line then
    let fields := pyFields line
    if fields.length > 12 then
      match find_domain_field fields with
      | .error e => .error e
      | .ok domain =>
        if dom ≠ "" then
          match domain with
          | none => .error .typeError
          | some d => if reS dom d then .ok (incr s.1 (some d), s.2 + 1) else .ok s
        else .ok (incr s.1 domain, s.2 + 1)
    else .ok s
  else .ok s

/-- Model of dnscl_tail.py dnscl_ipaddress: when the tail count is nonzero the
scan runs over the last that many lines, and when it is zero the scan runs
over `tail(filename)`, whose default is the last 60 lines of the file. -/
def dnscl_ipaddress (reS : String → String → Bool) (ip dom : String)
    (tailNum : Nat) (fileLines : List String) :
    Except PyErr (List (Option String × Nat) × Nat) :=
  runScan (ipStep reS ip dom) ([], 0)
    (if tailNum ≠ 0 then tail tailNum fileLines else tail 60 fileLines)

end DnsclTail

namespace Pihole

open Dnscl

/-- Model of dnscl_pihole.py find_field with field_type "block_domain": the
anchor is the first token containing "0.0.0.0" and the value sits two tokens
before it (Python indexing). -/
def find_field_block (fields : List String) : Except PyErr (Option String) :=
  findLoopAux (fun f => pyIn "0.0.0.0" f) (-2) fields fields 0

/-- Per-line body of dnscl_pihole.py dnscl_blocklist: a line counts when it
contains the client filter as a plain substring (no port separator is
appended in this variant) together with the blocklist marker "is 0.0.0.0". -/
def blocklistStep (ip : String) (s : List (Option String) × Nat) (line : String) :
    Except PyErr (List (Option String) × Nat) :=
  if pyIn ip line then
    if pyIn "is 0.0.0.0" line then
      let fields := pyFields line
      match find_field_block fields with
      | .error e => .error e
      | .ok dom => .ok (s.1 ++ [dom], s.2 + 1)
    else .ok s
  else .ok s

/-- Model of dnscl_pihole.py dnscl_blocklist: the blocklist scan, returning
the list of blocked names and the line count. -/
def dnscl_blocklist (ip : String) (lines : List String) :
    Except PyErr (List (Option String) × Nat) :=
  runScan (blocklistStep ip) ([], 0) lines

/-- Lexicographic order on character lists by code point, as Python compares
strings. -/
def strLtB : List Char → List Char → Bool
  | [], [] => false
  | [], _ :: _ => true
  | _ :: _, [] => false
  | a :: as, b :: bs => if a < b then true else if b < a then false else strLtB as bs

/-- Python string comparison `a < b`. -/
def pyStrLt (a b : String) : Bool := strLtB a.data b.data

/-- Stable ascending insertion by string order, modelling Python `sorted`. -/
def insertAsc (x : String) : List String → List String
  | [] => [x]
  | y :: ys => if pyStrLt y x then y :: insertAsc x ys else x :: y :: ys

/-- Model of Python `sorted(names)`: stable ascending sort. -/
def pySortAsc : List String → List String
  | [] => []
  | x :: xs => insertAsc x (pySortAsc xs)

/-- Model of `itertools.groupby` over an already sorted list: count runs of
adjacent equal names. -/
def groupRuns : List String → List (String × Nat)
  | [] => []
  | x :: xs =>
    match groupRuns xs with
    | [] => [(x, 1)]
    | (y, n) :: rest => if x = y then (y, n + 1) :: rest else (x, 1) :: (y, n) :: rest

/-- Python tuple comparison on (count, name) pairs. -/
def tupLt (p q : Nat × String) : Bool :=
  p.1 < q.1 || (p.1 = q.1 && pyStrLt p.2 q.2)

/-- Stable descending insertion by full tuple order, modelling Python
`list.sort(reverse=True)` on (count, name) pairs. -/
def insertTupDesc (x : Nat × String) : List (Nat × String) → List (Nat × String)
  | [] => [x]
  | y :: ys => if tupLt x y then y :: insertTupDesc x ys else x :: y :: ys

/-- Model of `domain_list_final.sort(reverse=True)`. -/
def pySortTupDesc : List (Nat × String) → List (Nat × String)
  | [] => []
  | x :: xs => insertTupDesc x (pySortTupDesc xs)

/-- Model of the ranking step of dnscl_pihole.py dnscl_ipaddress, lines 67 to
70: group the sorted name list into (count, name) pairs and sort those pairs
in reverse tuple order. -/
def pihole_rank (domainList : List String) : List (Nat × String) :=
  pySortTupDesc ((groupRuns (pySortAsc domainList)).map (fun p => (p.2, p.1)))

end Pihole

namespace Dnscl

/-- Incrementing one key raises the total of an aggregate by exactly one. -/
theorem sumCounts_incr {α : Type} [DecidableEq α] (d : List (α × Nat)) (k : α) :
    sumCounts (incr d k) = sumCounts d + 1 := by
  induction d with
  | nil => simp [incr, sumCounts]
  | cons p rest ih =>
    obtain ⟨k2, c⟩ := p
    by_cases hk : k = k2
    · simp [incr, hk, sumCounts]
      omega
    · simp [incr, hk, sumCounts] at ih ⊢
      omega

/-- A property preserved by every successful step holds at the end of a scan
that completes without an exception. -/
theorem runScan_inv {σ : Type} (P : σ → Prop) (step : σ → String → Except PyErr σ)
    (hstep : ∀ s l s2, step s l = .ok s2 → P s → P s2) :
    ∀ (ls : List String) (s s2 : σ), runScan step s ls = .ok s2 → P s → P s2 := by
  intro ls
  induction ls with
  | nil =>
    intro s s2 h hP
    unfold runScan at h
    injection h with h
    subst h
    exact hP
  | cons l ls ih =>
    intro s s2 h hP
    unfold runScan at h
    split at h
    next s3 heq => exact ih s3 s2 h (hstep s l s3 heq hP)
    next => exact absurd h (by simp)

/-- A line on which the step acts as the identity can be deleted from the
middle of the input without changing the result of the scan. -/
theorem runScan_skip {σ : Type} (step : σ → String → Except PyErr σ) (l : String)
    (hskip : ∀ s, step s l = .ok s) :
    ∀ (ls1 : List String) (s : σ) (ls2 : List String),
      runScan step s (ls1 ++ l :: ls2) = runScan step s (ls1 ++ ls2) := by
  intro ls1
  induction ls1 with
  | nil =>
    intro s ls2
    simp only [List.nil_append]
    conv =>
      lhs
      unfold runScan
    rw [hskip s]
  | cons x xs ih =>
    intro s ls2
    simp only [List.cons_append]
    unfold runScan
    cases step s x with
    | ok s2 => exact ih s2 ls2
    | error e => rfl

/-- The per-line step of the by-client-address mode preserves the equality of
aggregate total and line count. -/
theorem ipStep_sum (reS : String → String → Bool) (ip dom : String) :
    ∀ s line s2, ipStep reS ip dom s line = .ok s2 →
      sumCounts s.1 = s.2 → sumCounts s2.1 = s2.2 := by
  intro s line s2 h hP
  simp only [ipStep] at h
  repeat' split at h
  all_goals
    first
    | (injection h with h; subst h; simp [sumCounts_incr, hP])
    | exact absurd h (by simp)

/-- The per-line step of the by-domain mode preserves the equality of the
client aggregate total and the line count. -/
theorem domainStep_sum (reS : String → String → Bool) (domName ipSearch : String) :
    ∀ s line s2, domainStep reS domName ipSearch s line = .ok s2 →
      sumCounts s.1 = s.2.2 → sumCounts s2.1 = s2.2.2 := by
  intro s line s2 h hP
  simp only [domainStep] at h
  repeat' split at h
  all_goals
    first
    | (injection h with h; subst h; simp [sumCounts_incr, hP])
    | exact absurd h (by simp)

/-- The per-line step of the by-policy-zone mode preserves the equality of
aggregate total and line count. -/
theorem rpzStep_sum (ip : String) :
    ∀ s line s2, rpzStep ip s line = .ok s2 →
      sumCounts s.1 = s.2 → sumCounts s2.1 = s2.2 := by
  intro s line s2 h hP
  simp only [rpzStep] at h
  repeat' split at h
  all_goals
    first
    | (injection h with h; subst h; simp [sumCounts_incr, hP])
    | exact absurd h (by simp)

/-- The per-line step of the by-policy-zone-domain mode preserves the
equality of the client aggregate total and the line count. -/
theorem rpzDomainStep_sum (domRpz : String) :
    ∀ s line s2, rpzDomainStep domRpz s line = .ok s2 →
      sumCounts s.1 = s.2.2 → sumCounts s2.1 = s2.2.2 := by
  intro s line s2 h hP
  simp only [rpzDomainStep] at h
  repeat' split at h
  all_goals
    first
    | (injection h with h; subst h; simp [sumCounts_incr, hP])
    | exact absurd h (by simp)

/-- The per-line step of the by-record-type-for-client mode preserves the
equality of aggregate total and line count. -/
theorem recordIpStep_sum (ip : String) :
    ∀ s line s2, recordIpStep ip s line = .ok s2 →
      sumCounts s.1 = s.2.2 → sumCounts s2.1 = s2.2.2 := by
  intro s line s2 h hP
  simp only [recordIpStep] at h
  repeat' split at h
  all_goals
    first
    | (injection h with h; subst h; simp [sumCounts_incr, hP])
    | exact absurd h (by simp)

/-- The per-line step of the by-record-type-for-domain mode preserves the
equality of aggregate total and line count. -/
theorem recordDomainStep_sum (domName : String) :
    ∀ s line s2, recordDomainStep domName s line = .ok s2 →
      sumCounts s.1 = s.2.2.2 → sumCounts s2.1 = s2.2.2.2 := by
  intro s line s2 h hP
  simp only [recordDomainStep] at h
  repeat' split at h
  all_goals
    first
    | (injection h with h; subst h; simp [sumCounts_incr, hP])
    | exact absurd h (by simp)

/-- The per-line step of the by-exact-record-type mode preserves the equality
of aggregate total and line count. -/
theorem recordTypeStep_sum (recType : String) :
    ∀ s line s2, recordTypeStep recType s line = .ok s2 →
      sumCounts s.1 = s.2.2 → sumCounts s2.1 = s2.2.2 := by
  intro s line s2 h hP
  simp only [recordTypeStep] at h
  repeat' split at h
  all_goals
    first
    | (injection h with h; subst h; simp [sumCounts_incr, hP])
    | exact absurd h (by simp)

end Dnscl

namespace Sample

/-- Concrete BIND query log line: client 10.0.0.5 queries example.com, type A,
14 tokens, containing "named", "query:" and the client token "10.0.0.5#53". -/
def goodLine : String :=
  "Jan 1 00:00:00 ns named[9]: client 10.0.0.5#53 (example.com): query: example.com IN A + (10.0.0.5)"

/-- Concrete policy-zone hit line: 12 tokens, "QNAME" token at index 8, the
client token "10.0.0.9#51" three before it and the zone token
"example.com/A" three after it, no "SOA". -/
def rpzLine : String :=
  "a b c d client 10.0.0.9#51 x y QNAME NXDOMAIN rewrite example.com/A"

/-- Concrete policy-zone line carrying the SOA exclusion marker next to the
QNAME policy-hit marker. -/
def soaLine : String :=
  "a b c d client 10.0.0.9#51 x y QNAME SOA rewrite example.com/A"

/-- Concrete Pi-hole blocklist line whose client address token is 10.0.0.10
and which contains the blocklist marker "is 0.0.0.0". -/
def blockLine : String := "a 10.0.0.10 ads.com is 0.0.0.0"

/-- Concrete line containing "query:" as a substring of the token "query:bar"
but not as a stand-alone token: the extraction anchor is never found even
though the line-level marker check passes. -/
def missLine : String := "foo query:bar baz"

end Sample

open Dnscl in
/-- C1: for every input file and every query mode (by-client-address,
by-domain, by-policy-zone, by-policy-zone-domain, by-record-type-for-client,
by-record-type-for-domain, by-exact-record-type), after the scan completes,
the sum of all per-key counts in the aggregate equals the total-matched line
count reported and returned by that mode. -/
theorem c1_aggregate_sum_eq_total :
    (∀ (reS : String → String → Bool) (ip dom : String) (lines : List String) d c,
      dnscl_ipaddress reS ip dom lines = .ok (d, c) → sumCounts d = c) ∧
    (∀ (reS : String → String → Bool) (domName ipSearch : String) (lines : List String) di dd c,
      dnscl_domain reS domName ipSearch lines = .ok (di, dd, c) → sumCounts di = c) ∧
    (∀ (ip : String) (lines : List String) d c,
      dnscl_rpz ip lines = .ok (d, c) → sumCounts d = c) ∧
    (∀ (domRpz : String) (lines : List String) d names c,
      dnscl_rpz_domain domRpz lines = .ok (d, names, c) → sumCounts d = c) ∧
    (∀ (ip : String) (lines : List String) d doms c,
      dnscl_record_ip ip lines = .ok (d, doms, c) → sumCounts d = c) ∧
    (∀ (domName : String) (lines : List String) d ips doms c,
      dnscl_record_domain domName lines = .ok (d, ips, doms, c) → sumCounts d = c) ∧
    (∀ (recType : String) (lines : List String) d ips c,
      dnscl_record_type recType lines = .ok (d, ips, c) → sumCounts d = c) := by
  refine ⟨?_, ?_, ?_, ?_, ?_, ?_, ?_⟩
  · intro reS ip dom lines d c h
    exact runScan_inv (fun s => sumCounts s.1 = s.2) _ (ipStep_sum reS ip dom)
      lines ([], 0) (d, c) h (by simp [sumCounts])
  · intro reS domName ipSearch lines di dd c h
    exact runScan_inv (fun s => sumCounts s.1 = s.2.2) _ (domainStep_sum reS domName ipSearch)
      lines ([], [], 0) (di, dd, c) h (by simp [sumCounts])
  · intro ip lines d c h
    exact runScan_inv (fun s => sumCounts s.1 = s.2) _ (rpzStep_sum ip)
      lines ([], 0) (d, c) h (by simp [sumCounts])
  · intro domRpz lines d names c h
    exact runScan_inv (fun s => sumCounts s.1 = s.2.2) _ (rpzDomainStep_sum domRpz)
      lines ([], [], 0) (d, names, c) h (by simp [sumCounts])
  · intro ip lines d doms c h
    exact runScan_inv (fun s => sumCounts s.1 = s.2.2) _ (recordIpStep_sum ip)
      lines ([], [], 0) (d, doms, c) h (by simp [sumCounts])
  · intro domName lines d ips doms c h
    exact runScan_inv (fun s => sumCounts s.1 = s.2.2.2) _ (recordDomainStep_sum domName)
      lines ([], [], [], 0) (d, ips, doms, c) h (by simp [sumCounts])
  · intro recType lines d ips c h
    exact runScan_inv (fun s => sumCounts s.1 = s.2.2) _ (recordTypeStep_sum recType)
      lines ([], [], 0) (d, ips, c) h (by simp [sumCounts])

open Dnscl Sample in
/-- Witness for C1: the seven mode invariants instantiated at concrete
one-line inputs, each scan completing with a concrete aggregate whose total
is the reported count. -/
theorem c1_aggregate_sum_eq_total_witness :
    sumCounts [((some "example.com" : Option String), 1)] = 1 ∧
    sumCounts [(("10.0.0.5" : String), 1)] = 1 ∧
    sumCounts [(("example.com" : String), 1)] = 1 ∧
    sumCounts [(("10.0.0.9" : String), 1)] = 1 ∧
    sumCounts [((some "A" : Option String), 1)] = 1 ∧
    sumCounts [((some "A" : Option String), 2)] = 2 ∧
    sumCounts [((some "example.com" : Option String), 1)] = 1 :=
  ⟨c1_aggregate_sum_eq_total.1 pyIn "10.0.0.5" "" [goodLine]
      [(some "example.com", 1)] 1 (by decide),
   c1_aggregate_sum_eq_total.2.1 pyIn "example" "" [goodLine]
      [("10.0.0.5", 1)] [("example.com", 1)] 1 (by decide),
   c1_aggregate_sum_eq_total.2.2.1 "10.0.0.9" [rpzLine]
      [("example.com", 1)] 1 (by decide),
   c1_aggregate_sum_eq_total.2.2.2.1 "example" [rpzLine]
      [("10.0.0.9", 1)] ["example.com"] 1 (by decide),
   c1_aggregate_sum_eq_total.2.2.2.2.1 "10.0.0.5" [goodLine]
      [(some "A", 1)] [some "example.com"] 1 (by decide),
   c1_aggregate_sum_eq_total.2.2.2.2.2.1 "example" [goodLine, goodLine]
      [(some "A", 2)] ["10.0.0.5", "10.0.0.5"] [some "example.com", some "example.com"] 2
      (by decide),
   c1_aggregate_sum_eq_total.2.2.2.2.2.2 "A" [goodLine]
      [(some "example.com", 1)] ["10.0.0.5"] 1 (by decide)⟩

open Dnscl in
/-- The by-policy-zone step ignores any line containing the SOA marker. -/
theorem rpzStep_soa_skip (ip : String) (l : String) (h : pyIn "SOA" l = true) :
    ∀ s, rpzStep ip s l = .ok s := by
  intro s
  simp [rpzStep, h]

open Dnscl in
/-- The by-policy-zone-domain step ignores any line containing the SOA marker. -/
theorem rpzDomainStep_soa_skip (domRpz : String) (l : String) (h : pyIn "SOA" l = true) :
    ∀ s, rpzDomainStep domRpz s l = .ok s := by
  intro s
  simp [rpzDomainStep, h]

open Dnscl in
/-- C7: for every input line containing the SOA exclusion marker, no policy
mode (by-policy-zone or by-policy-zone-domain) ever counts that line or adds
it to any aggregate, even when the line also contains the policy-hit marker
QNAME: deleting the line from the input leaves both scans unchanged. -/
theorem c7_soa_line_never_counted (l : String) (h : pyIn "SOA" l = true) :
    (∀ (ip : String) (ls1 ls2 : List String),
      dnscl_rpz ip (ls1 ++ l :: ls2) = dnscl_rpz ip (ls1 ++ ls2)) ∧
    (∀ (domRpz : String) (ls1 ls2 : List String),
      dnscl_rpz_domain domRpz (ls1 ++ l :: ls2) = dnscl_rpz_domain domRpz (ls1 ++ ls2)) := by
  constructor
  · intro ip ls1 ls2
    unfold dnscl_rpz
    exact runScan_skip (rpzStep ip) l (rpzStep_soa_skip ip l h) ls1 ([], 0) ls2
  · intro domRpz ls1 ls2
    unfold dnscl_rpz_domain
    exact runScan_skip (rpzDomainStep domRpz) l (rpzDomainStep_soa_skip domRpz l h) ls1
      ([], [], 0) ls2

open Dnscl Sample in
/-- Witness for C7: a concrete policy-hit line carrying both QNAME and SOA is
transparent to both policy scans on a concrete two-line file. -/
theorem c7_soa_line_never_counted_witness :
    dnscl_rpz "10.0.0.9" [soaLine, rpzLine] = dnscl_rpz "10.0.0.9" [rpzLine] ∧
    dnscl_rpz_domain "example" [soaLine, rpzLine] = dnscl_rpz_domain "example" [rpzLine] :=
  ⟨(c7_soa_line_never_counted soaLine (by decide)).1 "10.0.0.9" [] [rpzLine],
   (c7_soa_line_never_counted soaLine (by decide)).2 "example" [] [rpzLine]⟩

namespace Dnscl

/-- Index of the first token satisfying the anchor predicate, the reference
function for characterizing the extraction loops. -/
def firstIdx (pred : String → Bool) : List String → Option Nat
  | [] => none
  | f :: r => if pred f then some 0 else (firstIdx pred r).map (fun j => j + 1)

/-- Characterization of the extraction loop: it returns None when no token
satisfies the anchor predicate, and otherwise indexes the original token list
at the first anchor position plus the offset with Python indexing. -/
theorem findLoopAux_firstIdx (pred : String → Bool) (off : Int) (fields : List String) :
    ∀ (rest : List String) (i : Nat),
      findLoopAux pred off fields rest i =
        match firstIdx pred rest with
        | none => .ok none
        | some j => (pyGet fields (((i + j : Nat) : Int) + off)).map (fun v => some v) := by
  intro rest
  induction rest with
  | nil => intro i; rfl
  | cons f r ih =>
    intro i
    by_cases hp : pred f
    · simp [findLoopAux, firstIdx, hp]
    · simp only [findLoopAux, firstIdx, hp, if_neg, Bool.false_eq_true, not_false_iff,
        ite_false]
      rw [ih (i + 1)]
      cases hfi : firstIdx pred r with
      | none => simp
      | some j =>
        simp only []
        congr 2
        push_cast
        ring

/-- Reading a valid nonnegative index returns the token there. -/
theorem pyGet_nat_ok (fields : List String) (n : Nat) (h : n < fields.length) :
    pyGet fields (n : Int) = .ok (fields.get ⟨n, h⟩) := by
  unfold pyGet
  rw [if_pos (by omega)]
  have hn : ((n : Int)).toNat = n := by omega
  rw [hn]
  simp [List.getElem?_eq_getElem h, List.get_eq_getElem]

/-- Reading a nonnegative index past the end raises IndexError. -/
theorem pyGet_nat_err (fields : List String) (n : Nat) (h : fields.length ≤ n) :
    pyGet fields (n : Int) = .error .indexError := by
  unfold pyGet
  rw [if_pos (by omega)]
  have hn : ((n : Int)).toNat = n := by omega
  rw [hn]
  simp [List.getElem?_eq_none_iff.mpr h]

/-- Reading a negative index that stays inside the list wraps around and
returns the token counted from the end. -/
theorem pyGet_neg_ok (fields : List String) (i : Int) (h1 : i < 0) (n : Nat)
    (hn : (fields.length : Int) + i = (n : Int)) (hlt : n < fields.length) :
    pyGet fields i = .ok (fields.get ⟨n, hlt⟩) := by
  unfold pyGet
  rw [if_neg (by omega)]
  simp only []
  rw [if_pos (by omega)]
  have ht : ((fields.length : Int) + i).toNat = n := by omega
  rw [ht]
  simp [List.getElem?_eq_getElem hlt, List.get_eq_getElem]

/-- Reading a negative index that precedes the start of the list raises
IndexError. -/
theorem pyGet_neg_err (fields : List String) (i : Int) (h1 : i < 0)
    (h2 : (fields.length : Int) + i < 0) :
    pyGet fields i = .error .indexError := by
  unfold pyGet
  rw [if_neg (by omega)]
  simp only []
  rw [if_neg (by omega)]

end Dnscl

namespace Dnscl

/-- Specification form of find_domain_field in terms of the first anchor index. -/
theorem find_domain_field_eq (fields : List String) :
    find_domain_field fields =
      match firstIdx (fun f => f = "query:") fields with
      | none => .ok none
      | some j => (pyGet fields ((j : Int) + 1)).map (fun v => some v) := by
  unfold find_domain_field
  rw [findLoopAux_firstIdx]
  cases firstIdx (fun f => f = "query:") fields with
  | none => rfl
  | some j => simp

/-- Specification form of find_ip_field in terms of the first anchor index. -/
theorem find_ip_field_eq (fields : List String) :
    find_ip_field fields =
      match firstIdx (fun f => f = "query:") fields with
      | none => .ok none
      | some j => (pyGet fields ((j : Int) + (-2))).map (fun v => some v) := by
  unfold find_ip_field
  rw [findLoopAux_firstIdx]
  cases firstIdx (fun f => f = "query:") fields with
  | none => rfl
  | some j => simp

/-- Specification form of find_record_type_field in terms of the first anchor index. -/
theorem find_record_type_field_eq (fields : List String) :
    find_record_type_field fields =
      match firstIdx (fun f => f = "query:") fields with
      | none => .ok none
      | some j => (pyGet fields ((j : Int) + 3)).map (fun v => some v) := by
  unfold find_record_type_field
  rw [findLoopAux_firstIdx]
  cases firstIdx (fun f => f = "query:") fields with
  | none => rfl
  | some j => simp

/-- Specification form of find_rpz_domain_field in terms of the first anchor index. -/
theorem find_rpz_domain_field_eq (fields : List String) :
    find_rpz_domain_field fields =
      match firstIdx (fun f => f = "QNAME") fields with
      | none => .ok none
      | some j => (pyGet fields ((j : Int) + 3)).map (fun v => some v) := by
  unfold find_rpz_domain_field
  rw [findLoopAux_firstIdx]
  cases firstIdx (fun f => f = "QNAME") fields with
  | none => rfl
  | some j => simp

/-- Specification form of find_rpz_ip_field in terms of the first anchor index. -/
theorem find_rpz_ip_field_eq (fields : List String) :
    find_rpz_ip_field fields =
      match firstIdx (fun f => f = "QNAME") fields with
      | none => .ok none
      | some j => (pyGet fields ((j : Int) + (-3))).map (fun v => some v) := by
  unfold find_rpz_ip_field
  rw [findLoopAux_firstIdx]
  cases firstIdx (fun f => f = "QNAME") fields with
  | none => rfl
  | some j => simp

end Dnscl

open Dnscl in
/-- C3 (amended): each field-extraction function returns the token at its
fixed offset from the first anchor occurrence when the computed index is
nonnegative and within the list, and returns absent when the anchor is never
found; but when the computed index runs past the end of the list it raises an
IndexError instead of returning absent (the negative-index case is settled
separately and wraps around). -/
theorem c3_extractor_offset_characterization (fields : List String) :
    (firstIdx (fun f => f = "query:") fields = none →
      find_domain_field fields = .ok none ∧ find_ip_field fields = .ok none ∧
      find_record_type_field fields = .ok none) ∧
    (firstIdx (fun f => f = "QNAME") fields = none →
      find_rpz_domain_field fields = .ok none ∧ find_rpz_ip_field fields = .ok none) ∧
    (∀ (i : Nat) (h : firstIdx (fun f => f = "query:") fields = some i)
        (hb : i + 1 < fields.length),
      find_domain_field fields = .ok (some (fields.get ⟨i + 1, hb⟩))) ∧
    (∀ (i : Nat), firstIdx (fun f => f = "query:") fields = some i →
      fields.length ≤ i + 1 → find_domain_field fields = .error .indexError) ∧
    (∀ (i : Nat) (h : firstIdx (fun f => f = "query:") fields = some i)
        (h2 : 2 ≤ i) (hb : i - 2 < fields.length),
      find_ip_field fields = .ok (some (fields.get ⟨i - 2, hb⟩))) ∧
    (∀ (i : Nat) (h : firstIdx (fun f => f = "query:") fields = some i)
        (hb : i + 3 < fields.length),
      find_record_type_field fields = .ok (some (fields.get ⟨i + 3, hb⟩))) ∧
    (∀ (i : Nat), firstIdx (fun f => f = "query:") fields = some i →
      fields.length ≤ i + 3 → find_record_type_field fields = .error .indexError) ∧
    (∀ (i : Nat) (h : firstIdx (fun f => f = "QNAME") fields = some i)
        (hb : i + 3 < fields.length),
      find_rpz_domain_field fields = .ok (some (fields.get ⟨i + 3, hb⟩))) ∧
    (∀ (i : Nat) (h : firstIdx (fun f => f = "QNAME") fields = some i)
        (h3 : 3 ≤ i) (hb : i - 3 < fields.length),
      find_rpz_ip_field fields = .ok (some (fields.get ⟨i - 3, hb⟩))) := by
  refine ⟨?_, ?_, ?_, ?_, ?_, ?_, ?_, ?_, ?_⟩
  · intro h
    refine ⟨?_, ?_, ?_⟩
    · rw [find_domain_field_eq, h]
    · rw [find_ip_field_eq, h]
    · rw [find_record_type_field_eq, h]
  · intro h
    refine ⟨?_, ?_⟩
    · rw [find_rpz_domain_field_eq, h]
    · rw [find_rpz_ip_field_eq, h]
  · intro i h hb
    rw [find_domain_field_eq, h]
    dsimp only
    rw [show ((i : Int) + 1) = ((i + 1 : Nat) : Int) by push_cast; ring]
    rw [pyGet_nat_ok fields (i + 1) hb]
    rfl
  · intro i h hb
    rw [find_domain_field_eq, h]
    dsimp only
    rw [show ((i : Int) + 1) = ((i + 1 : Nat) : Int) by push_cast; ring]
    rw [pyGet_nat_err fields (i + 1) hb]
    rfl
  · intro i h h2 hb
    rw [find_ip_field_eq, h]
    dsimp only
    rw [show ((i : Int) + (-2)) = ((i - 2 : Nat) : Int) by omega]
    rw [pyGet_nat_ok fields (i - 2) hb]
    rfl
  · intro i h hb
    rw [find_record_type_field_eq, h]
    dsimp only
    rw [show ((i : Int) + 3) = ((i + 3 : Nat) : Int) by push_cast; ring]
    rw [pyGet_nat_ok fields (i + 3) hb]
    rfl
  · intro i h hb
    rw [find_record_type_field_eq, h]
    dsimp only
    rw [show ((i : Int) + 3) = ((i + 3 : Nat) : Int) by push_cast; ring]
    rw [pyGet_nat_err fields (i + 3) hb]
    rfl
  · intro i h hb
    rw [find_rpz_domain_field_eq, h]
    dsimp only
    rw [show ((i : Int) + 3) = ((i + 3 : Nat) : Int) by push_cast; ring]
    rw [pyGet_nat_ok fields (i + 3) hb]
    rfl
  · intro i h h3 hb
    rw [find_rpz_ip_field_eq, h]
    dsimp only
    rw [show ((i : Int) + (-3)) = ((i - 3 : Nat) : Int) by omega]
    rw [pyGet_nat_ok fields (i - 3) hb]
    rfl

open Dnscl in
/-- Counterexample for C3 as stated: with the anchor as first token the
client-address extractor's computed index is negative, yet the function
returns a token (the one two places before the end) instead of absent; and
with the anchor as last token the domain extractor's computed index is past
the end, yet the function raises IndexError instead of returning absent. -/
theorem c3_out_of_bounds_not_absent_cex :
    find_ip_field ["query:", "a", "b"] = .ok (some "a") ∧
    (Except.ok (some "a") : Except PyErr (Option String)) ≠ .ok none ∧
    find_domain_field ["a", "query:"] = .error .indexError ∧
    (Except.error .indexError : Except PyErr (Option String)) ≠ .ok none := by
  refine ⟨by decide, by decide, by decide, by decide⟩

open Dnscl in
/-- Witness for C3: the characterization instantiated at concrete token
lists covering every case. -/
theorem c3_extractor_offset_characterization_witness :
    find_domain_field ["a", "b"] = .ok none ∧
    find_ip_field ["a", "b"] = .ok none ∧
    find_record_type_field ["a", "b"] = .ok none ∧
    find_rpz_domain_field ["a", "b"] = .ok none ∧
    find_rpz_ip_field ["a", "b"] = .ok none ∧
    find_domain_field ["c", "ip", "x", "query:", "dom", "IN", "A"] = .ok (some "dom") ∧
    find_domain_field ["a", "query:"] = .error .indexError ∧
    find_ip_field ["c", "ip", "x", "query:", "dom", "IN", "A"] = .ok (some "ip") ∧
    find_record_type_field ["c", "ip", "x", "query:", "dom", "IN", "A"] = .ok (some "A") ∧
    find_record_type_field ["a", "query:"] = .error .indexError ∧
    find_rpz_domain_field ["ip", "x", "y", "QNAME", "a", "b", "zone"] = .ok (some "zone") ∧
    find_rpz_ip_field ["ip", "x", "y", "QNAME", "a", "b", "zone"] = .ok (some "ip") := by
  have hnq := (c3_extractor_offset_characterization ["a", "b"]).1 (by decide)
  have hnn := (c3_extractor_offset_characterization ["a", "b"]).2.1 (by decide)
  have h6 := (c3_extractor_offset_characterization ["c", "ip", "x", "query:", "dom", "IN", "A"]).2.2.1
    3 (by decide) (by decide)
  have h7 := (c3_extractor_offset_characterization ["a", "query:"]).2.2.2.1
    1 (by decide) (by decide)
  have h8 := (c3_extractor_offset_characterization ["c", "ip", "x", "query:", "dom", "IN", "A"]).2.2.2.2.1
    3 (by decide) (by decide) (by decide)
  have h9 := (c3_extractor_offset_characterization ["c", "ip", "x", "query:", "dom", "IN", "A"]).2.2.2.2.2.1
    3 (by decide) (by decide)
  have h10 := (c3_extractor_offset_characterization ["a", "query:"]).2.2.2.2.2.2.1
    1 (by decide) (by decide)
  have h11 := (c3_extractor_offset_characterization ["ip", "x", "y", "QNAME", "a", "b", "zone"]).2.2.2.2.2.2.2.1
    3 (by decide) (by decide)
  have h12 := (c3_extractor_offset_characterization ["ip", "x", "y", "QNAME", "a", "b", "zone"]).2.2.2.2.2.2.2.2
    3 (by decide) (by decide) (by decide)
  exact ⟨hnq.1, hnq.2.1, hnq.2.2, hnn.1, hnn.2, h6, h7, h8, h9, h10, h11, h12⟩

open Dnscl in
/-- C10 (amended): when the anchor's negative-offset field would fall before
position 0 (the first "query:" at index 0 or 1 for the client-address field,
the first "QNAME" at index 0, 1 or 2 for the RPZ client-address field), the
extractor does not report the field absent: whenever the list is long enough
for a Python negative index it returns the token counted from the end, and
when even the wrapped position precedes the list it raises IndexError. -/
theorem c10_negative_offset_wraps :
    (∀ (fields : List String) (i : Nat),
      firstIdx (fun f => f = "query:") fields = some i → i < 2 →
      2 ≤ fields.length + i → ∀ (hb : fields.length + i - 2 < fields.length),
      find_ip_field fields = .ok (some (fields.get ⟨fields.length + i - 2, hb⟩))) ∧
    (∀ (fields : List String) (i : Nat),
      firstIdx (fun f => f = "query:") fields = some i → fields.length + i < 2 →
      find_ip_field fields = .error .indexError) ∧
    (∀ (fields : List String) (i : Nat),
      firstIdx (fun f => f = "QNAME") fields = some i → i < 3 →
      3 ≤ fields.length + i → ∀ (hb : fields.length + i - 3 < fields.length),
      find_rpz_ip_field fields = .ok (some (fields.get ⟨fields.length + i - 3, hb⟩))) ∧
    (∀ (fields : List String) (i : Nat),
      firstIdx (fun f => f = "QNAME") fields = some i → fields.length + i < 3 →
      find_rpz_ip_field fields = .error .indexError) := by
  refine ⟨?_, ?_, ?_, ?_⟩
  · intro fields i h hlt hge hb
    rw [find_ip_field_eq, h]
    dsimp only
    rw [pyGet_neg_ok fields ((i : Int) + (-2)) (by omega) (fields.length + i - 2)
      (by omega) hb]
    rfl
  · intro fields i h hlt
    rw [find_ip_field_eq, h]
    dsimp only
    rw [pyGet_neg_err fields ((i : Int) + (-2)) (by omega) (by omega)]
    rfl
  · intro fields i h hlt hge hb
    rw [find_rpz_ip_field_eq, h]
    dsimp only
    rw [pyGet_neg_ok fields ((i : Int) + (-3)) (by omega) (fields.length + i - 3)
      (by omega) hb]
    rfl
  · intro fields i h hlt
    rw [find_rpz_ip_field_eq, h]
    dsimp only
    rw [pyGet_neg_err fields ((i : Int) + (-3)) (by omega) (by omega)]
    rfl

open Dnscl in
/-- Counterexample for C10 as stated: with the anchor as the only token the
negative Python index precedes the list, and the extractor raises IndexError
rather than returning any token counted from the end. -/
theorem c10_negative_offset_underflow_cex :
    find_ip_field ["query:"] = .error .indexError ∧
    find_rpz_ip_field ["QNAME"] = .error .indexError := by
  refine ⟨by decide, by decide⟩

open Dnscl in
/-- Witness for C10: concrete anchors at index 1 and 2 with in-range wrapped
positions, and concrete one-token underflows. -/
theorem c10_negative_offset_wraps_witness :
    find_ip_field ["a", "query:"] = .ok (some "query:") ∧
    find_rpz_ip_field ["a", "b", "QNAME"] = .ok (some "QNAME") ∧
    find_ip_field ["query:"] = .error .indexError ∧
    find_rpz_ip_field ["QNAME"] = .error .indexError :=
  ⟨c10_negative_offset_wraps.1 ["a", "query:"] 1 (by decide) (by decide) (by decide)
      (by decide),
   c10_negative_offset_wraps.2.2.1 ["a", "b", "QNAME"] 2 (by decide) (by decide)
      (by decide) (by decide),
   c10_negative_offset_wraps.2.1 ["query:"] 0 (by decide) (by decide),
   c10_negative_offset_wraps.2.2.2 ["QNAME"] 0 (by decide) (by decide)⟩

namespace Sample

/-- Concrete line passing every line-level guard of the by-client-address
mode (client token with port separator, "named", the substring "query:"
inside the token "query:bar", more than 12 tokens) whose token list contains
no stand-alone "query:" token: an anchor-never-found extraction miss. -/
def missNamedLine : String := "named 10.0.0.5#1 a b c d e f g h i query:bar more"

/-- Concrete 13-token line whose exact "query:" anchor is the final token, so
the domain offset anchor+1 runs past the end of the list. -/
def endAnchorLine : String := "named 10.0.0.5#1 a b c d e f g h i j query:"

end Sample

open Dnscl Sample in
/-- C2 (amended): an extraction miss is not recovered uniformly.  In the
by-exact-record-type mode a line whose token list never contains the exact
"query:" anchor is silently excluded and the scan continues; but the
by-client-address wildcard path counts such a line under an absent key
instead of excluding it, and an anchor-plus-offset index past the end of the
token list raises IndexError and aborts even the wildcard scan. -/
theorem c2_extraction_miss_behavior :
    (∀ (l : String), firstIdx (fun f => f = "query:") (pyFields l) = none →
      ∀ (recType : String) (ls1 ls2 : List String),
        dnscl_record_type recType (ls1 ++ l :: ls2) =
          dnscl_record_type recType (ls1 ++ ls2)) ∧
    dnscl_ipaddress pyIn "10.0.0.5" "" [missNamedLine] = .ok ([(none, 1)], 1) ∧
    dnscl_ipaddress pyIn "10.0.0.5" "" [endAnchorLine] = .error .indexError := by
  refine ⟨?_, by decide, by decide⟩
  intro l h recType ls1 ls2
  have hsk : ∀ s, recordTypeStep recType s l = .ok s := by
    intro s
    by_cases hq : pyIn "query:" l
    · simp [recordTypeStep, hq, find_record_type_field_eq, h]
    · simp [recordTypeStep, hq]
  unfold dnscl_record_type
  exact runScan_skip _ l hsk ls1 ([], [], 0) ls2

open Dnscl Sample in
/-- Counterexample for C2 as stated: in the by-domain mode a line containing
the "query:" marker substring but no stand-alone "query:" token is an
anchor-never-found extraction miss, and the scan aborts with an
AttributeError (Python calls .split on the None returned by find_ip_field)
instead of silently excluding the line. -/
theorem c2_extraction_miss_aborts_cex :
    dnscl_domain pyIn "x" "" [missLine] = .error .attributeError ∧
    dnscl_domain pyIn "x" "" [] = .ok ([], [], 0) := by
  refine ⟨by decide, by decide⟩

open Dnscl Sample in
/-- Witness for C2: the record-type-mode exclusion applied to the concrete
miss line. -/
theorem c2_extraction_miss_behavior_witness :
    dnscl_record_type "A" [missLine] = dnscl_record_type "A" [] :=
  c2_extraction_miss_behavior.1 missLine (by decide) "A" [] []

namespace Sample

/-- Concrete query line whose client address token is "10.0.0.10#53": used to
show that the plain-substring client cross-filter of the by-domain mode
accepts it for the filter "10.0.0.1". -/
def tenLine : String :=
  "Jan 1 00:00:00 ns named[9]: client 10.0.0.10#53 (example.com): query: example.com IN A + (10.0.0.10)"

end Sample

open Dnscl Sample in
/-- C5: evaluation of the by-policy-zone-domain mode at a concrete policy-hit
line whose text contains "example" only in lower case.  With the filter
"example" the line is counted; with the filter "Example" the outer
case-sensitive gate `domain_rpz_name in line` rejects the line before the
case-insensitive check `domain_rpz_name.lower() in line.lower()` (which would
accept it) can run, so the two reports differ, violating the case-insensitive
contract the dead inner check was written to provide. -/
theorem c5_rpz_domain_case_gate_divergence :
    dnscl_rpz_domain "example" [rpzLine] = .ok ([("10.0.0.9", 1)], ["example.com"], 1) ∧
    dnscl_rpz_domain "Example" [rpzLine] = .ok ([], [], 0) ∧
    pyIn (pyLower "Example") (pyLower rpzLine) = true ∧
    pyIn "Example" rpzLine = false := by
  refine ⟨by decide, by decide, by decide, by decide⟩

open Dnscl in
/-- C6 (amended): in the three syslog modes that append the port separator to
the client filter (by-client-address, by-policy-zone,
by-record-type-for-client) a line is counted only if it contains the filter
string immediately followed by the port separator; the by-domain client
cross-filter and the pihole blocklist mode instead match the bare filter
substring anywhere in the line. -/
theorem c6_port_separator_required :
    (∀ (reS : String → String → Bool) (ip dom : String) s line s2,
      ipStep reS ip dom s line = .ok s2 → s2.2 = s.2 + 1 →
      pyIn (ip ++ "#") line = true) ∧
    (∀ (ip : String) s line s2,
      rpzStep ip s line = .ok s2 → s2.2 = s.2 + 1 →
      pyIn (ip ++ "#") line = true) ∧
    (∀ (ip : String) s line s2,
      recordIpStep ip s line = .ok s2 → s2.2.2 = s.2.2 + 1 →
      pyIn (ip ++ "#") line = true) := by
  refine ⟨?_, ?_, ?_⟩
  · intro reS ip dom s line s2 h hc
    simp only [ipStep] at h
    repeat' split at h
    all_goals
      first
      | assumption
      | (injection h with h; subst h; exact absurd hc (by omega))
      | exact absurd h (by simp)
  · intro ip s line s2 h hc
    simp only [rpzStep] at h
    repeat' split at h
    all_goals
      first
      | assumption
      | (injection h with h; subst h; exact absurd hc (by omega))
      | exact absurd h (by simp)
  · intro ip s line s2 h hc
    simp only [recordIpStep] at h
    repeat' split at h
    all_goals
      first
      | assumption
      | (injection h with h; subst h; exact absurd hc (by omega))
      | exact absurd h (by simp)

open Dnscl Sample in
/-- Counterexample for C6 as stated: the pihole blocklist mode and the
by-domain client cross-filter match the client filter as a bare substring,
so the filter "10.0.0.1" counts lines whose client address is 10.0.0.10. -/
theorem c6_bare_substring_modes_cex :
    Pihole.dnscl_blocklist "10.0.0.1" [blockLine] = .ok ([some "ads.com"], 1) ∧
    dnscl_domain pyIn "" "10.0.0.1" [tenLine] =
      .ok ([("10.0.0.10", 1)], [("example.com", 1)], 1) := by
  refine ⟨by decide, by decide⟩

open Dnscl Sample in
/-- Witness for C6: the three port-separator modes instantiated at concrete
counted lines. -/
theorem c6_port_separator_required_witness :
    pyIn ("10.0.0.5" ++ "#") goodLine = true ∧
    pyIn ("10.0.0.9" ++ "#") rpzLine = true ∧
    pyIn ("10.0.0.5" ++ "#") goodLine = true :=
  ⟨c6_port_separator_required.1 pyIn "10.0.0.5" "" ([], 0) goodLine
      ([(some "example.com", 1)], 1) (by decide) (by decide),
   c6_port_separator_required.2.1 "10.0.0.9" ([], 0) rpzLine
      ([("example.com", 1)], 1) (by decide) (by decide),
   c6_port_separator_required.2.2 "10.0.0.5" ([], [], 0) goodLine
      ([(some "A", 1)], [some "example.com"], 1) (by decide) (by decide)⟩

namespace Dnscl

/-- Correctness of the character-list prefix test. -/
theorem startsWithList_iff (p l : List Char) : startsWithList p l = true ↔ p <+: l := by
  induction p generalizing l with
  | nil => simp [startsWithList]
  | cons a as ih =>
    cases l with
    | nil => simp [startsWithList]
    | cons b bs => simp [startsWithList, ih, List.cons_prefix_cons]

/-- Correctness of the substring scan: it decides list infix containment. -/
theorem containsSub_iff (p l : List Char) : containsSub p l = true ↔ p <:+: l := by
  induction l with
  | nil => simp [containsSub, List.isEmpty_iff]
  | cons c cs ih =>
    rw [containsSub, Bool.or_eq_true, startsWithList_iff, ih, List.infix_cons_iff]

/-- Containment of a concatenation implies containment of its second part:
if `a ++ b` occurs in the line then so does `b`. -/
theorem pyIn_append_right (a b l : String) (h : pyIn (a ++ b) l = true) :
    pyIn b l = true := by
  rw [pyIn, containsSub_iff] at h ⊢
  have hs : b.data <:+: (a ++ b).data := by
    rw [String.data_append]
    exact (List.suffix_append a.data b.data).isInfix
  exact hs.trans h

/-- Count component of a by-client-address step outcome, `none` when the step
raised an exception. -/
def okCount2 (r : Except PyErr (List (Option String × Nat) × Nat)) : Option Nat :=
  match r with
  | .ok s => some s.2
  | .error _ => none

end Dnscl

open Dnscl in
/-- C8 (amended): in the by-client-address mode, every line counted under any
client and domain filters is also counted by the wildcard run with both
filters empty, so the wildcard run accepts a (not necessarily strict)
superset of the lines of any filtered run; the by-exact-record-type mode is
the exception settled by the counterexample. -/
theorem c8_wildcard_superset_ipaddress (reS : String → String → Bool) (ip dom : String)
    (s : List (Option String × Nat) × Nat) (line : String)
    (s2 : List (Option String × Nat) × Nat)
    (h : ipStep reS ip dom s line = .ok s2) (hc : s2.2 = s.2 + 1) :
    ∀ (t : List (Option String × Nat) × Nat),
      okCount2 (ipStep reS "" "" t line) = some (t.2 + 1) := by
  intro t
  by_cases h1 : pyIn (ip ++ "#") line
  · by_cases h2 : pyIn "named" line && pyIn "query:" line
    · by_cases h3 : (pyFields line).length > 12
      · cases hfd : find_domain_field (pyFields line) with
        | error e => simp [ipStep, h1, h2, h3, hfd] at h
        | ok domain =>
          have h1w : pyIn ("" ++ "#") line = true := pyIn_append_right ip "#" line h1
          have h1x : pyIn "#" line = true := by simpa using h1w
          simp [ipStep, okCount2, h1w, h1x, h2, h3, hfd]
      · simp [ipStep, h1, h2, h3] at h
        rw [Prod.ext_iff] at h
        omega
    · simp [ipStep, h1, h2] at h
      rw [Prod.ext_iff] at h
      omega
  · simp [ipStep, h1] at h
    rw [Prod.ext_iff] at h
    omega

open Dnscl Sample in
/-- Counterexample for C8 as stated: in the by-exact-record-type mode the
empty-string filter matches only lines whose record-type token is empty, so
on a concrete file the wildcard run counts 0 lines while the filter "A"
counts 1: the wildcard run accepts no superset and its total is smaller. -/
theorem c8_record_type_wildcard_cex :
    dnscl_record_type "" [goodLine] = .ok ([], [], 0) ∧
    dnscl_record_type "A" [goodLine] =
      .ok ([(some "example.com", 1)], ["10.0.0.5"], 1) := by
  refine ⟨by decide, by decide⟩

open Dnscl Sample in
/-- Witness for C8: a line counted by the filters 10.0.0.5 and example is
counted by the wildcard run as well. -/
theorem c8_wildcard_superset_ipaddress_witness :
    okCount2 (ipStep pyIn "" "" ([], 0) goodLine) = some 1 :=
  c8_wildcard_superset_ipaddress pyIn "10.0.0.5" "example" ([], 0) goodLine
    ([(some "example.com", 1)], 1) (by decide) (by decide) ([], 0)

namespace Dnscl

/-- Inserting into the count-sorted list is a permutation of consing. -/
theorem insertByCount_perm {α : Type} (x : α × Nat) (l : List (α × Nat)) :
    (insertByCount x l).Perm (x :: l) := by
  induction l with
  | nil => exact List.Perm.refl _
  | cons y ys ih =>
    by_cases hgt : y.2 > x.2
    · rw [insertByCount, if_pos hgt]
      exact (ih.cons y).trans (List.Perm.swap x y ys)
    · rw [insertByCount, if_neg hgt]

/-- The ranking is a permutation of the aggregate. -/
theorem sort_dict_perm {α : Type} (l : List (α × Nat)) : (sort_dict l).Perm l := by
  induction l with
  | nil => exact List.Perm.refl _
  | cons x xs ih => exact (insertByCount_perm x (sort_dict xs)).trans (ih.cons x)

/-- Inserting into a list sorted by non-increasing counts keeps it sorted. -/
theorem insertByCount_pairwise {α : Type} (x : α × Nat) (l : List (α × Nat))
    (h : l.Pairwise (fun a b => b.2 ≤ a.2)) :
    (insertByCount x l).Pairwise (fun a b => b.2 ≤ a.2) := by
  induction l with
  | nil => simp [insertByCount]
  | cons y ys ih =>
    rw [List.pairwise_cons] at h
    obtain ⟨hy, hys⟩ := h
    by_cases hgt : y.2 > x.2
    · rw [insertByCount, if_pos hgt, List.pairwise_cons]
      refine ⟨?_, ih hys⟩
      intro z hz
      rw [(insertByCount_perm x ys).mem_iff] at hz
      rcases List.mem_cons.mp hz with rfl | hz
      · omega
      · exact hy z hz
    · rw [insertByCount, if_neg hgt, List.pairwise_cons]
      refine ⟨?_, ?_⟩
      · intro z hz
        rcases List.mem_cons.mp hz with rfl | hz
        · omega
        · have := hy z hz
          omega
      · rw [List.pairwise_cons]
        exact ⟨hy, hys⟩

/-- The ranking is sorted by non-increasing counts. -/
theorem sort_dict_pairwise {α : Type} (l : List (α × Nat)) :
    (sort_dict l).Pairwise (fun a b => b.2 ≤ a.2) := by
  induction l with
  | nil => simp [sort_dict]
  | cons x xs ih => exact insertByCount_pairwise x (sort_dict xs) ih

/-- Stability of the insertion: among entries of one fixed count, the new
entry lands in front exactly when it carries that count, and the relative
order of the others is untouched. -/
theorem insertByCount_filter {α : Type} (x : α × Nat) (l : List (α × Nat)) (c : Nat) :
    (insertByCount x l).filter (fun p => decide (p.2 = c)) =
      if x.2 = c then x :: l.filter (fun p => decide (p.2 = c))
      else l.filter (fun p => decide (p.2 = c)) := by
  induction l with
  | nil =>
    by_cases hx : x.2 = c <;> simp [insertByCount, hx]
  | cons y ys ih =>
    by_cases hgt : y.2 > x.2
    · by_cases hx : x.2 = c
      · have hy : ¬ y.2 = c := by omega
        rw [insertByCount, if_pos hgt]
        simp [List.filter_cons, hy, hx, ih]
      · rw [insertByCount, if_pos hgt]
        simp [List.filter_cons, hx, ih]
    · by_cases hx : x.2 = c
      · rw [insertByCount, if_neg hgt]
        simp [List.filter_cons, hx]
      · rw [insertByCount, if_neg hgt]
        simp [List.filter_cons, hx]

/-- Stability of the ranking: entries of one fixed count appear in exactly
the order the aggregate enumeration yields them. -/
theorem sort_dict_filter {α : Type} (l : List (α × Nat)) (c : Nat) :
    (sort_dict l).filter (fun p => decide (p.2 = c)) =
      l.filter (fun p => decide (p.2 = c)) := by
  induction l with
  | nil => rfl
  | cons x xs ih =>
    rw [sort_dict, insertByCount_filter]
    by_cases hx : x.2 = c
    · simp [List.filter_cons, hx, ih]
    · simp [List.filter_cons, hx, ih]

end Dnscl

open Dnscl in
/-- C9 (amended): the ranking step sort_dict of the syslog variants returns a
permutation of the aggregate's (key, count) pairs ordered by non-increasing
count, and it is stable on count only: for each count value the entries keep
the order of the underlying key enumeration.  The pihole variant is the
exception settled by the counterexample. -/
theorem c9_sort_dict_stable_descending (l : List (String × Nat)) :
    (sort_dict l).Perm l ∧
    (sort_dict l).Pairwise (fun a b => b.2 ≤ a.2) ∧
    ∀ (c : Nat), (sort_dict l).filter (fun p => decide (p.2 = c)) =
      l.filter (fun p => decide (p.2 = c)) :=
  ⟨sort_dict_perm l, sort_dict_pairwise l, fun c => sort_dict_filter l c⟩

open Dnscl in
/-- Counterexample for C9 as stated: the pihole ranking of the name list with
two distinct names of count one is sorted in reverse tuple order, so the
count-tie is broken by descending name, not left in the ascending order the
groupby enumeration yields. -/
theorem c9_pihole_tie_order_cex :
    Pihole.pihole_rank ["a", "b"] = [(1, "b"), (1, "a")] ∧
    (Pihole.groupRuns (Pihole.pySortAsc ["a", "b"])).map (fun p => (p.2, p.1)) =
      [(1, "a"), (1, "b")] ∧
    ([(1, "b"), (1, "a")] : List (Nat × String)) ≠ [(1, "a"), (1, "b")] := by
  refine ⟨by decide, by decide, by decide⟩

open Dnscl Sample in
/-- The tail-variant by-client-address step counts the concrete good line
under the key example.com for every starting state. -/
theorem tailIpStep_goodLine :
    ∀ (d : List (Option String × Nat)) (c : Nat),
      DnsclTail.ipStep pyIn "10.0.0.5" "" (d, c) goodLine =
        .ok (incr d (some "example.com"), c + 1) := by
  intro d c
  have h1 : pyIn "10.0.0.5#" goodLine = true := by decide
  have h1b : pyIn "named" goodLine = true := by decide
  have h1c : pyIn "query" goodLine = true := by decide
  have h2 : (pyFields goodLine).length > 12 := by decide
  have h3 : find_domain_field (pyFields goodLine) = .ok (some "example.com") := by decide
  simp [DnsclTail.ipStep, h1, h1b, h1c, h2, h3]

open Dnscl Sample in
/-- The whole-file by-client-address step counts the concrete good line under
the key example.com for every starting state. -/
theorem ipStep_goodLine :
    ∀ (d : List (Option String × Nat)) (c : Nat),
      ipStep pyIn "10.0.0.5" "" (d, c) goodLine =
        .ok (incr d (some "example.com"), c + 1) := by
  intro d c
  have h1 : pyIn "10.0.0.5#" goodLine = true := by decide
  have h2 : (pyIn "named" goodLine && pyIn "query:" goodLine) = true := by decide
  have h3 : (pyFields goodLine).length > 12 := by decide
  have h4 : find_domain_field (pyFields goodLine) = .ok (some "example.com") := by decide
  simp [ipStep, h1, h2, h3, h4]

open Dnscl in
/-- Scanning n copies of a line the step always counts yields count n. -/
theorem runScan_replicate_okCount2
    (step : (List (Option String × Nat) × Nat) → String → Except PyErr (List (Option String × Nat) × Nat))
    (l : String) (k : Option String)
    (hstep : ∀ d c, step (d, c) l = .ok (incr d k, c + 1)) :
    ∀ (n : Nat) (d : List (Option String × Nat)) (c : Nat),
      okCount2 (runScan step (d, c) (List.replicate n l)) = some (c + n) := by
  intro n
  induction n with
  | zero =>
    intro d c
    simp [runScan, okCount2]
  | succ n ih =>
    intro d c
    rw [List.replicate_succ]
    unfold runScan
    rw [hstep d c]
    dsimp only
    rw [ih (incr d k) (c + 1)]
    congr 1
    omega

open Dnscl Sample in
/-- Counterexample for C4 as stated: on a static 61-line file of identical
counted lines, the tailing variant invoked with tail count 0 scans only the
last 60 lines (the tail helper's Python default), reporting 60 matches, while
the whole-file scan of the same file reports 61. -/
theorem c4_tail_zero_last_sixty_cex :
    okCount2 (DnsclTail.dnscl_ipaddress pyIn "10.0.0.5" "" 0
      (List.replicate 61 goodLine)) = some 60 ∧
    okCount2 (dnscl_ipaddress pyIn "10.0.0.5" ""
      (List.replicate 61 goodLine)) = some 61 ∧
    (some 60 : Option Nat) ≠ some 61 := by
  refine ⟨?_, ?_, by decide⟩
  · unfold DnsclTail.dnscl_ipaddress
    rw [if_neg (by decide)]
    have htail : DnsclTail.tail 60 (List.replicate 61 goodLine) =
        List.replicate 60 goodLine := by
      rw [DnsclTail.tail]
      simp [List.drop_replicate]
    rw [htail]
    have := runScan_replicate_okCount2 (DnsclTail.ipStep pyIn "10.0.0.5" "") goodLine
      (some "example.com") tailIpStep_goodLine 60 [] 0
    simpa using this
  · unfold dnscl_ipaddress
    have := runScan_replicate_okCount2 (ipStep pyIn "10.0.0.5" "") goodLine
      (some "example.com") ipStep_goodLine 61 [] 0
    simpa using this

open Dnscl in
/-- C4 (amended): with tail count 0 the tailing variant reads the last 60
lines of the file, not the whole file; consequently its report coincides with
the same variant's scan of the whole file exactly on files of at most 60
lines. -/
theorem c4_tail_zero_reads_last_sixty (reS : String → String → Bool)
    (ip dom : String) (file : List String) (h : file.length ≤ 60) :
    DnsclTail.dnscl_ipaddress reS ip dom 0 file =
      runScan (DnsclTail.ipStep reS ip dom) ([], 0) file := by
  unfold DnsclTail.dnscl_ipaddress
  rw [if_neg (by decide)]
  have htail : DnsclTail.tail 60 file = file := by
    rw [DnsclTail.tail, Nat.sub_eq_zero_of_le h, List.drop_zero]
  rw [htail]

open Dnscl Sample in
/-- Witness for C4: on a one-line file the tail-count-0 run equals the
whole-file scan of the tail variant. -/
theorem c4_tail_zero_reads_last_sixty_witness :
    DnsclTail.dnscl_ipaddress pyIn "10.0.0.5" "" 0 [goodLine] =
      runScan (DnsclTail.ipStep pyIn "10.0.0.5" "") ([], 0) [goodLine] :=
  c4_tail_zero_reads_last_sixty pyIn "10.0.0.5" "" [goodLine] (by decide)
